import Mathlib

/-!
Shallow embedding of the OraoProject data-cleaning engine (src/main.rs).

Modelling conventions:
* `f32` values are modelled by `ℚ` (the spec's stated non-goal: exact
  reproduction of floating-point rounding).  Where the source can produce a
  `NaN` (the statistics of an empty series, and the `f32::NAN` initial value
  of `prevval`), we use `Option ℚ` with `none` playing the role of `NaN`;
  every IEEE comparison against `NaN` is false, which the model reproduces
  explicitly.
* `u64` timestamps are modelled by `ℕ`; the only arithmetic on them is
  `checked_sub`, modelled exactly.  The `u32` gap counters are modelled by
  `ℕ`: their `u32` wrap-around is reachable only on inputs with more than
  `2^32` readings and is not modelled.
* The `HashMap<u32, HashMap<u32, DataItem>>` groupings are modelled as
  association lists processed in list order; `HashMap` iteration order is
  unspecified in Rust, so the list order is one admissible iteration order.
* The statistics map lookups in `clean_data` (`.get(..).unwrap()`) are
  modelled by passing the statistics as a total function, matching the
  precondition that the Statistics Aggregator ran first.
-/

/-- Float model: `none` is `NaN`, `some q` a (rounding-free) finite value. -/
abbrev Flt := Option ℚ

/-- Model of `f32::MAX`, `(2 - 2⁻²³) · 2¹²⁷ = (2²⁴ - 1) · 2¹⁰⁴`. -/
def f32MAX : ℚ := (2 ^ 24 - 1) * 2 ^ 104

/-- Model of `f32::MIN = -f32::MAX`. -/
def f32MIN : ℚ := -f32MAX

/-- Addition on the float model; `NaN` propagates. -/
def fadd : Flt → Flt → Flt
  | some a, some b => some (a + b)
  | _, _ => none

/-- Subtraction on the float model; `NaN` propagates. -/
def fsub : Flt → Flt → Flt
  | some a, some b => some (a - b)
  | _, _ => none

/-- Multiplication on the float model; `NaN` propagates. -/
def fmul : Flt → Flt → Flt
  | some a, some b => some (a * b)
  | _, _ => none

/-- Division on the float model; `NaN` propagates, and a zero divisor yields
`NaN`.  In the source the only zero-divisor division is `0.0 / 0.0` (empty
sum divided by an empty length), which is `NaN` in IEEE arithmetic; the
`x ≠ 0` case of `x / 0` (which would be `±∞`) is unreachable. -/
def fdiv : Flt → Flt → Flt
  | some a, some b => if b = 0 then none else some (a / b)
  | _, _ => none

/-- Sum of a list on the float model, folded from `0.0` as
`value.iter().sum::<f32>()` does. -/
def fsum (l : List Flt) : Flt := l.foldl fadd (some 0)

/-- Square root on the float model.  `NaN` propagates and a negative argument
yields `NaN`.  On nonnegative rationals we use `Rat.sqrt`, an integer-rounded
approximation of the real square root: no claim settled in this file depends
on the numeric value of a square root, only on `NaN` propagation. -/
def fsqrt : Flt → Flt
  | none => none
  | some q => if q < 0 then none else some (Rat.sqrt q)

/-- Model of `struct DataItem { value: Vec<f32>, timestamp: Vec<u64> }`:
parallel vectors of the readings of one (provider, metric) series. -/
structure DataItem where
  value : List ℚ
  timestamp : List ℕ
  deriving Repr, DecidableEq

/-- Model of `struct Statistics { min: f32, max: f32, std: f32 }`.  `min` and
`max` are folds over finite values and stay finite (`ℚ`); `std` can be the
`NaN` of an empty series, hence `Flt`. -/
structure Statistics where
  min : ℚ
  max : ℚ
  std : Flt
  deriving Repr, DecidableEq

/-- Statistics of one series, as built for each `data_id` inside
`parse_data_statistics`: `min`/`max` are folds from `f32::MAX`/`f32::MIN`,
`std` is the square root of the population variance (mean of squared
deviations from the arithmetic mean). -/
def itemStatistics (item : DataItem) : Statistics :=
  { min := item.value.foldl (fun a b => Min.min a b) f32MAX
    max := item.value.foldl (fun a b => Max.max a b) f32MIN
    std :=
      let mean : Flt := fdiv (some item.value.sum) (some (item.value.length : ℚ))
      let variance : Flt :=
        fdiv (fsum (item.value.map fun item =>
                let diff := fsub mean (some item)
                fmul diff diff))
          (some (item.value.length : ℚ))
      fsqrt variance }

/-- Model of `parse_data_statistics`: walks every provider and every metric
and computes `itemStatistics`; the `Result` return type has no error path in
the source (it always returns `Ok`), modelled by `Except`. -/
def parse_data_statistics (data : List (ℕ × List (ℕ × DataItem))) :
    Except String (List (ℕ × List (ℕ × Statistics))) :=
  Except.ok (data.map fun p =>
    (p.1, p.2.map fun m => (m.1, itemStatistics m.2)))

/-- Model of `u64::checked_sub`: `none` on underflow. -/
def checked_sub (a b : ℕ) : Option ℕ :=
  if b ≤ a then some (a - b) else none

/-- Time delta of `clean_data`: `match time.checked_sub(prevtime)
{ Some(diff) => diff, _ => 0 }` — underflow is clamped to `0`. -/
def timeDelta (prevtime time : ℕ) : ℕ :=
  match checked_sub time prevtime with
  | some diff => diff
  | _ => 0

/-- Model of `f32::abs` on finite values. -/
def fabs (q : ℚ) : ℚ := if q < 0 then -q else q

/-- Value-proximity half of the duplicate test:
`(value - prevval).abs() < (item_std / 2.0)`.  `prevval` starts as
`f32::NAN` in the source and `item_std` can be `NaN`; an IEEE `<` against
`NaN` is false, which the `none` branches reproduce. -/
def valueClose (item_std : Flt) (prevval : Option ℚ) (value : ℚ) : Bool :=
  match item_std, prevval with
  | some s, some pv => decide (fabs (value - pv) < s / 2)
  | _, _ => false

/-- Duplicate classification of `clean_data`:
`(diff < 100) && (value - prevval).abs() < (item_std / 2.0)`. -/
def isDuplicate (item_std : Flt) (prevtime : ℕ) (prevval : Option ℚ)
    (value : ℚ) (time : ℕ) : Bool :=
  decide (timeDelta prevtime time < 100) && valueClose item_std prevval value

/-- Scan of one series inside `clean_data`, over
`zip(&data_item.value, &data_item.timestamp)`.  State: `prevtime`
(initially `0`, doubling as the "unset" sentinel tested by
`if prevtime == 0`), `prevval` (initially `f32::NAN`, modelled `none`),
`gapcount` and `maxgap` (series-local run counters), and the provider-level
`gap_statistics` pair `(total_gaps, max_count)` that the duplicate branch
reads, updates and writes back.  Returns the cleaned `(value, timestamp)`
pairs and the updated provider pair. -/
def cleanScan (item_std : Flt) :
    List (ℚ × ℕ) → ℕ → Option ℚ → ℕ → ℕ → ℕ × ℕ → List (ℚ × ℕ) × (ℕ × ℕ)
  | [], _, _, _, _, acc => ([], acc)
  | (value, time) :: rest, prevtime, prevval, gapcount, maxgap, acc =>
    if prevtime = 0 then
      -- the seeding branch `continue`s without pushing the reading
      cleanScan item_std rest time (some value) gapcount maxgap acc
    else if isDuplicate item_std prevtime prevval value time then
      let total_gaps := acc.1 + 1
      let gapcount' := gapcount + 1
      let max_count := if gapcount' > maxgap then gapcount' else acc.2
      let maxgap' := if gapcount' > maxgap then gapcount' else maxgap
      cleanScan item_std rest prevtime prevval gapcount' maxgap'
        (total_gaps, max_count)
    else
      let res := cleanScan item_std rest time (some value) 0 maxgap acc
      ((value, time) :: res.1, res.2)

/-- Cleaning of one metric series: scan from the initial state and rebuild
the parallel `value`/`timestamp` vectors of the cleaned `DataItem`. -/
def cleanSeries (item_std : Flt) (item : DataItem) (acc : ℕ × ℕ) :
    DataItem × (ℕ × ℕ) :=
  let res := cleanScan item_std (item.value.zip item.timestamp) 0 none 0 0 acc
  ({ value := res.1.map Prod.fst, timestamp := res.1.map Prod.snd }, res.2)

/-- Inner loop of `clean_data` over one provider's metrics, threading the
provider's `gap_statistics` pair through each series scan. -/
def cleanProviderGo (stats : ℕ → Flt) (acc : ℕ × ℕ) :
    List (ℕ × DataItem) → List (ℕ × DataItem) × (ℕ × ℕ)
  | [] => ([], acc)
  | (data_id, item) :: rest =>
    let res := cleanSeries (stats data_id) item acc
    let resRest := cleanProviderGo stats res.2 rest
    ((data_id, res.1) :: resRest.1, resRest.2)

/-- Model of `clean_data`: per provider, start the `gap_statistics` entry at
`(0, 0)` and clean every metric series; returns the cleaned data and the
per-provider `(total_gaps, max_count)` map. -/
def clean_data (data : List (ℕ × List (ℕ × DataItem)))
    (data_statistics : ℕ → ℕ → Flt) :
    List (ℕ × List (ℕ × DataItem)) × List (ℕ × (ℕ × ℕ)) :=
  (data.map fun p => (p.1, (cleanProviderGo (data_statistics p.1) (0, 0) p.2).1),
   data.map fun p => (p.1, (cleanProviderGo (data_statistics p.1) (0, 0) p.2).2))

/-! ## Helper lemmas -/

/-- Every branch of the scan either drops the head reading or keeps it in
place, so the cleaned pairs form a sublist of the input pairs. -/
theorem cleanScan_sublist (item_std : Flt) (l : List (ℚ × ℕ)) :
    ∀ pt pv g m acc, (cleanScan item_std l pt pv g m acc).1.Sublist l := by
  induction l with
  | nil =>
    intro pt pv g m acc
    simp [cleanScan]
  | cons x rest ih =>
    intro pt pv g m acc
    obtain ⟨value, time⟩ := x
    simp only [cleanScan]
    split
    · exact (ih ..).cons _
    · split
      · exact (ih ..).cons _
      · exact (ih ..).cons₂ _

/-- Pairwise order on the second components transfers to the zipped list. -/
theorem pairwise_snd_zip {R : ℕ → ℕ → Prop} (vs : List ℚ) :
    ∀ ts : List ℕ, ts.Pairwise R →
      (vs.zip ts).Pairwise fun a b => R a.2 b.2 := by
  induction vs with
  | nil =>
    intro ts _
    simp
  | cons v vs ih =>
    intro ts h
    cases ts with
    | nil => simp
    | cons t ts =>
      rw [List.zip_cons_cons, List.pairwise_cons]
      rcases List.pairwise_cons.mp h with ⟨h1, h2⟩
      refine ⟨?_, ih ts h2⟩
      rintro ⟨a1, a2⟩ ha
      exact h1 a2 (List.of_mem_zip ha).2

/-- fabs is nonnegative. -/
theorem fabs_nonneg (q : ℚ) : 0 ≤ fabs q := by
  unfold fabs
  split <;> linarith

/-- Zipping the two projections of a pair list rebuilds the list. -/
theorem zip_map_fst_snd (l : List (ℚ × ℕ)) :
    (l.map Prod.fst).zip (l.map Prod.snd) = l := by
  induction l with
  | nil => rfl
  | cons x rest ih =>
    obtain ⟨a, b⟩ := x
    simp [List.zip_cons_cons, ih]

/-- Every cleaned series emitted by `cleanProviderGo` carries parallel
vectors of equal length (they are the two projections of one pair list). -/
theorem cleanProviderGo_lengths (stats : ℕ → Flt) :
    ∀ (ms : List (ℕ × DataItem)) (acc : ℕ × ℕ),
      ∀ km ∈ (cleanProviderGo stats acc ms).1,
        (km.2 : DataItem).value.length = km.2.timestamp.length := by
  intro ms
  induction ms with
  | nil =>
    intro acc km h
    simp [cleanProviderGo] at h
  | cons x rest ih =>
    intro acc km h
    obtain ⟨data_id, item⟩ := x
    simp only [cleanProviderGo, List.mem_cons] at h
    rcases h with h | h
    · subst h
      simp [cleanSeries]
    · exact ih _ _ h

/-! ## Claim theorems -/

/-- C1: the claim says the first reading of every series is retained and a
length-1 series cleans to itself.  The code's seeding branch
(`if prevtime == 0 { ...; continue; }`) never pushes the reading, so the
singleton series `[10.0 @ 1000]` cleans to the empty series (with no gap
recorded), contradicting the claim. -/
theorem firstReading_dropped_eval :
    cleanSeries (some 1) ⟨[10], [1000]⟩ (0, 0) = (⟨[], []⟩, (0, 0)) := by
  decide

/-- C2: the claim says a provider's `max_gap_run` is the maximum duplicate
run across all its metrics.  On a provider with metric 1 carrying a run of 3
duplicates and metric 2 a run of 1, the code reports `max_count = 1`: the
duplicate branch compares `gapcount` against the series-local `maxgap`
(reset to 0 for each metric) and then overwrites the provider-level
`max_count`, clobbering the earlier maximum of 3 (second conjunct: metric 1
alone yields `(3, 3)`). -/
theorem maxGapRun_clobbered_eval :
    (cleanProviderGo (fun _ => some 10) (0, 0)
        [(1, ⟨[5, 5, 5, 5], [1000, 1010, 1020, 1030]⟩),
         (2, ⟨[5, 5], [1000, 1010]⟩)]).2 = (4, 1)
    ∧ (cleanProviderGo (fun _ => some 10) (0, 0)
        [(1, ⟨[5, 5, 5, 5], [1000, 1010, 1020, 1030]⟩)]).2 = (3, 3) := by
  norm_num [cleanProviderGo, cleanSeries, cleanScan, isDuplicate, valueClose,
    timeDelta, checked_sub, fabs]

/-- C3: the claim says `len(input) = len(cleaned) + duplicates` for every
series.  For the singleton series `[7.0 @ 500]` the code produces an empty
cleaned series and zero duplicates (the seeded first reading is neither
retained nor counted), so `1 ≠ 0 + 0`. -/
theorem gap_conservation_fails_eval :
    (⟨[7], [500]⟩ : DataItem).value.length ≠
      (cleanSeries (some 1) ⟨[7], [500]⟩ (0, 0)).1.value.length
        + (cleanSeries (some 1) ⟨[7], [500]⟩ (0, 0)).2.1 := by
  decide

/-- C4 (counterexample): the claim says the aggregator signals an
`EmptySeries` error on a series with zero readings.  The code has no error
path: on an empty series it returns `Ok` with `min = f32::MAX`,
`max = f32::MIN` and `std = NaN` (the `0.0 / 0.0` mean propagates). -/
theorem emptySeries_no_error_eval :
    parse_data_statistics [(7, [(3, ⟨[], []⟩)])] =
      Except.ok [(7, [(3, { min := f32MAX, max := f32MIN, std := none })])] := by
  rfl

/-- C4 (amended): on a series with zero numeric readings the aggregator
signals no error: it totally computes `min = f32::MAX`, `max = f32::MIN`
and `std = NaN` (division of the empty sum by the zero length), and
`parse_data_statistics` always returns `Ok` — it neither crashes nor
propagates a numeric exception. -/
theorem emptySeries_returns_nan :
    (∀ item : DataItem, item.value = [] →
      itemStatistics item = { min := f32MAX, max := f32MIN, std := none })
    ∧ ∀ data, (parse_data_statistics data).isOk = true := by
  constructor
  · rintro ⟨v, t⟩ h
    dsimp only at h
    subst h
    rfl
  · intro data
    rfl

/-- C4 (witness): the amended statement instantiated on a concrete empty
series and a concrete batch. -/
theorem emptySeries_returns_nan_witness :
    itemStatistics ⟨[], [5]⟩ = { min := f32MAX, max := f32MIN, std := none }
    ∧ (parse_data_statistics [(1, [(2, ⟨[], [5]⟩)])]).isOk = true :=
  ⟨emptySeries_returns_nan.1 ⟨[], [5]⟩ rfl,
   emptySeries_returns_nan.2 [(1, [(2, ⟨[], [5]⟩)])]⟩

/-- C5: the spec scenario `[(10.0,0), (10.05,50), (10.0,1000), (50.0,1050)]`
with `std = 18` is claimed to clean to `[(10.0,0), (10.0,1000), (50.0,1050)]`
with 1 gap.  The code instead produces `[(10.0,1000), (50.0,1050)]` with 0
gaps: the first reading (timestamp 0) leaves `prevtime = 0`, so the second
reading is consumed by the seeding branch instead of being classified a
duplicate, and neither seeded reading is pushed to the cleaned output. -/
theorem scenario_eval :
    cleanSeries (some 18) ⟨[10, 10.05, 10, 50], [0, 50, 1000, 1050]⟩ (0, 0) =
      (⟨[10, 50], [1000, 1050]⟩, (0, 0)) := by
  norm_num [cleanSeries, cleanScan, isDuplicate, valueClose, timeDelta,
    checked_sub, fabs]

/-- C6 (counterexample): the claim says that with `stddev = 0` a reading is
a duplicate iff its `time_delta` is below 100.  With `std = 0`, `prevval = 5`,
`value = 5` and `time_delta = 50 < 100` the code still classifies the reading
as not-a-duplicate (the test `|Δvalue| < 0` is unsatisfiable even at zero
delta), and the series `[5 @ 1000, 5 @ 1050]` cleans to `[5 @ 1050]` with no
gap instead of suppressing the second reading. -/
theorem stddev_zero_time_proximity_cex :
    timeDelta 1000 1050 < 100
    ∧ isDuplicate (some 0) 1000 (some 5) 5 1050 = false
    ∧ cleanSeries (some 0) ⟨[5, 5], [1000, 1050]⟩ (0, 0) =
        (⟨[5], [1050]⟩, (0, 0)) := by
  norm_num [cleanSeries, cleanScan, isDuplicate, valueClose, timeDelta,
    checked_sub, fabs]

/-- C6 (amended): with `stddev = 0` no reading is ever classified as a
duplicate, whatever its time delta — the value test `|Δvalue| < 0/2` is
unsatisfiable (also for a zero delta), so classification does not degenerate
to time-proximity; it degenerates to "never duplicate". -/
theorem stddev_zero_never_duplicate (prevtime time : ℕ) (prevval : Option ℚ)
    (value : ℚ) :
    isDuplicate (some 0) prevtime prevval value time = false := by
  have hvc : valueClose (some 0) prevval value = false := by
    cases prevval with
    | none => rfl
    | some pv =>
      simp only [valueClose, decide_eq_false_iff_not, not_lt, zero_div]
      exact fabs_nonneg _
  simp [isDuplicate, hvc]

/-- C7: both duplicate thresholds are strict.  A reading whose `time_delta`
is exactly 100 is not a duplicate (`diff < 100` fails), and a reading whose
`value_delta` is exactly `stddev / 2` is not a duplicate
(`|Δvalue| < std/2` fails). -/
theorem threshold_strictness (item_std : ℚ) (prevtime time : ℕ)
    (prevval value : ℚ) :
    (timeDelta prevtime time = 100 →
      isDuplicate (some item_std) prevtime (some prevval) value time = false)
    ∧ (fabs (value - prevval) = item_std / 2 →
      isDuplicate (some item_std) prevtime (some prevval) value time = false) := by
  constructor
  · intro h
    simp [isDuplicate, h]
  · intro h
    simp [isDuplicate, valueClose, h]

/-- C7 (witness): the strict-threshold theorem instantiated at
`time_delta = 100` (timestamps 1000 and 1100) and at
`value_delta = 9 = 18 / 2`. -/
theorem threshold_strictness_witness :
    isDuplicate (some 18) 1000 (some 10) 99 1100 = false
    ∧ isDuplicate (some 18) 1000 (some 10) 19 1050 = false :=
  ⟨(threshold_strictness 18 1000 1100 10 99).1 (by decide),
   (threshold_strictness 18 1000 1050 10 19).2 (by norm_num [fabs])⟩

/-- C8: when the current timestamp is smaller than the previous retained
one, `checked_sub` underflows to `None`, the delta is clamped to `0` (no
panic, no wrapped value), and the time-proximity test `diff < 100` therefore
passes for such an out-of-order pair. -/
theorem timeDelta_clamped (prevtime time : ℕ) (h : time < prevtime) :
    checked_sub time prevtime = none
    ∧ timeDelta prevtime time = 0
    ∧ timeDelta prevtime time < 100 := by
  have hn : checked_sub time prevtime = none := by
    simp only [checked_sub, ite_eq_right_iff]
    intro hle
    omega
  refine ⟨hn, ?_, ?_⟩ <;> simp [timeDelta, hn]

/-- C8 (witness): the clamping theorem instantiated at
`prevtime = 1000`, `time = 500`. -/
theorem timeDelta_clamped_witness :
    checked_sub 500 1000 = none
    ∧ timeDelta 1000 500 = 0
    ∧ timeDelta 1000 500 < 100 :=
  timeDelta_clamped 1000 500 (by decide)

/-- C9: the cleaned series is a subsequence of the input series (its
value/timestamp pairs form a sublist of the input pairs, in order, with no
insertions), and under the precondition that the input timestamps are
non-decreasing, the cleaned timestamps are non-decreasing as well. -/
theorem cleaned_sublist_sorted (item_std : Flt) (item : DataItem)
    (acc : ℕ × ℕ) (h : item.timestamp.Pairwise (· ≤ ·)) :
    ((cleanSeries item_std item acc).1.value.zip
        (cleanSeries item_std item acc).1.timestamp).Sublist
      (item.value.zip item.timestamp)
    ∧ (cleanSeries item_std item acc).1.timestamp.Pairwise (· ≤ ·) := by
  constructor
  · simp only [cleanSeries]
    rw [zip_map_fst_snd]
    exact cleanScan_sublist ..
  · have hs := cleanScan_sublist item_std (item.value.zip item.timestamp)
      0 none 0 0 acc
    have hp := pairwise_snd_zip (R := (· ≤ ·)) item.value item.timestamp h
    simp only [cleanSeries]
    rw [List.pairwise_map]
    exact hp.sublist hs

/-- C9 (witness): the subsequence/ordering theorem instantiated on the
series `[(1, 100), (2, 200)]` with non-decreasing timestamps. -/
theorem cleaned_sublist_sorted_witness :
    ([100, 200] : List ℕ).Pairwise (· ≤ ·)
    ∧ (((cleanSeries (some 1) ⟨[1, 2], [100, 200]⟩ (0, 0)).1.value.zip
          (cleanSeries (some 1) ⟨[1, 2], [100, 200]⟩ (0, 0)).1.timestamp).Sublist
        ((⟨[1, 2], [100, 200]⟩ : DataItem).value.zip
          (⟨[1, 2], [100, 200]⟩ : DataItem).timestamp)
      ∧ (cleanSeries (some 1) ⟨[1, 2], [100, 200]⟩ (0, 0)).1.timestamp.Pairwise
          (· ≤ ·)) :=
  ⟨by decide,
   cleaned_sublist_sorted (some 1) ⟨[1, 2], [100, 200]⟩ (0, 0) (by decide)⟩

/-- C10: for every input whose `DataItem`s carry parallel vectors of equal
length, every (provider, metric) entry of the cleaned output of `clean_data`
again carries value and timestamp vectors of equal length (each retained
reading keeps its value/timestamp pairing). -/
theorem cleaned_parallel_lengths (data : List (ℕ × List (ℕ × DataItem)))
    (stats : ℕ → ℕ → Flt)
    (h : ∀ pm ∈ data, ∀ km ∈ pm.2,
        (km.2 : DataItem).value.length = km.2.timestamp.length) :
    ∀ pm ∈ (clean_data data stats).1, ∀ km ∈ pm.2,
      (km.2 : DataItem).value.length = km.2.timestamp.length := by
  rintro ⟨p, ms⟩ hpm km hkm
  simp only [clean_data, List.mem_map] at hpm
  obtain ⟨a, ha, heq⟩ := hpm
  obtain ⟨h1, h2⟩ := Prod.mk.injEq .. ▸ heq
  subst h2
  exact cleanProviderGo_lengths (stats a.1) a.2 (0, 0) km hkm

/-- C10 (witness): the parallel-length theorem instantiated on one provider
with one two-reading metric series. -/
theorem cleaned_parallel_lengths_witness :
    ((0, (⟨[2], [2000]⟩ : DataItem)) : ℕ × DataItem).2.value.length =
      ((0, (⟨[2], [2000]⟩ : DataItem)) : ℕ × DataItem).2.timestamp.length :=
  cleaned_parallel_lengths [(0, [(0, ⟨[1, 2], [100, 2000]⟩)])]
    (fun _ _ => some 1) (by decide) (0, [(0, ⟨[2], [2000]⟩)]) (by decide)
    (0, ⟨[2], [2000]⟩) (by decide)
